import Mathlib

/-!
Verification of the Conscience Inquiry client-side scripts.

Shallow embedding of the pure logic of three JavaScript files:
`storage.js` (localStorage helpers and progress computation),
`interactions.js` (slider formatter, character counter, reveal toggles),
`synthesis.js` (form submission, export text assembly).

DOM manipulation and timers are abstracted away; each embedded function
mirrors the control flow and string literals of its source function.
The file is laid out with all definitions first, then the theorems.
-/

namespace ConscienceInquiry

/-! ## Definitions -/

/-! ### interactions.js: formatConscienceSlider (lines 60-71)

JS source:
```
function formatConscienceSlider(value) {
    const innatePercent = value;
    const constructedPercent = 100 - value;
    if (value === 50) { return 'Exactly balanced'; }
    else if (value < 50) { return `(constructedPercent)% Constructed`; }
    else { return `(innatePercent)% Innate`; }
}
```
Slider values are integers (the callers use `parseInt(slider.value, 10)`),
so the embedding uses `Int`. -/

def formatConscienceSlider (value : Int) : String :=
  let innatePercent := value
  let constructedPercent := 100 - value
  if value = 50 then
    "Exactly balanced"
  else if value < 50 then
    toString constructedPercent ++ "% Constructed"
  else
    toString innatePercent ++ "% Innate"

/-! ### storage.js: progress and completion (lines 103-139)

`markPageCompleted` and `getProgressPercentage` interact with storage only
through the single key `completed_pages`, which always holds a JSON array of
page-name strings; they are embedded as functions of that list.

JS source of `markPageCompleted` (lines 103-109):
```
function markPageCompleted(pageName) {
  const completed = loadFromStorage('completed_pages', []);
  if (!completed.includes(pageName)) {
    completed.push(pageName);
    saveToStorage('completed_pages', completed);
  }
}
```
-/

def markPageCompleted (completed : List String) (pageName : String) : List String :=
  if pageName ∈ completed then completed else completed ++ [pageName]

/-- `Math.round` on the (exactly representable) values that arise here:
round half away from zero for nonnegative arguments, i.e. `⌊q + 1/2⌋`. -/
def mathRound (q : ℚ) : ℤ := ⌊q + 1 / 2⌋

/-- The fixed page list hardcoded in `getProgressPercentage`
(storage.js lines 126-135). -/
def allPages : List String :=
  ["index", "biology", "infants", "trauma", "family", "starvation",
   "philosophy", "synthesis"]

/-- storage.js lines 125-139:
```
function getProgressPercentage() {
  const allPages = [ ...eight names... ];
  const completed = loadFromStorage('completed_pages', []);
  const completedCount = allPages.filter(p => completed.includes(p)).length;
  return Math.round((completedCount / allPages.length) * 100);
}
```
The arithmetic is exact in IEEE doubles for `completedCount ≤ 8`, so the
rational model is faithful. -/
def getProgressPercentage (completed : List String) : ℤ :=
  let completedCount := (allPages.filter (fun p => decide (p ∈ completed))).length
  mathRound ((completedCount : ℚ) / (allPages.length : ℚ) * 100)

/-! ### storage.js: the stored-value model

Stored values are JSON; `JVal` models the JSON values this app stores
(numbers, strings, `null`, arrays of values). -/

inductive JVal where
  | null : JVal
  | num (n : Int) : JVal
  | str (s : String) : JVal
  | arr (elems : List JVal) : JVal

/-- Ideal view of the app's localStorage namespace: each (unprefixed) key
holds either a JSON value or nothing. This is the storage state seen when
the underlying API succeeds (the exception path is modelled separately for
the save/load/remove wrappers). -/
abbrev Store := String → Option JVal

/-- storage.js lines 30-42 in the ideal (non-throwing) view: a present key
yields its parsed value, an absent key yields the supplied default. -/
def loadStored (store : Store) (key : String) (defaultValue : JVal) : JVal :=
  (store key).getD defaultValue

/-- The record returned by `getAllResponses` (storage.js lines 83-97). -/
structure Responses where
  initialSlider : JVal
  initialReason : JVal
  biologyReflection : JVal
  infantsReflection : JVal
  traumaReflection : JVal
  familyReflection : JVal
  starvationReflection : JVal
  philosophyReflection : JVal
  synthesisStatement : JVal
  finalSlider : JVal
  completedPages : JVal

/-- storage.js lines 83-97: one `loadFromStorage` per fixed key, with the
defaults written in the source. -/
def getAllResponses (store : Store) : Responses :=
  { initialSlider := loadStored store "initial_slider" (.num 50)
    initialReason := loadStored store "initial_reason" (.str "")
    biologyReflection := loadStored store "biology_reflection" (.str "")
    infantsReflection := loadStored store "infants_reflection" (.str "")
    traumaReflection := loadStored store "trauma_reflection" (.str "")
    familyReflection := loadStored store "family_reflection" (.str "")
    starvationReflection := loadStored store "starvation_reflection" (.str "")
    philosophyReflection := loadStored store "philosophy_reflection" (.str "")
    synthesisStatement := loadStored store "synthesis_statement" (.str "")
    finalSlider := loadStored store "final_slider" .null
    completedPages := loadStored store "completed_pages" (.arr []) }

/-- The defaults of `getAllResponses` when nothing is stored. -/
def defaultResponses : Responses :=
  { initialSlider := .num 50
    initialReason := .str ""
    biologyReflection := .str ""
    infantsReflection := .str ""
    traumaReflection := .str ""
    familyReflection := .str ""
    starvationReflection := .str ""
    philosophyReflection := .str ""
    synthesisStatement := .str ""
    finalSlider := .null
    completedPages := .arr [] }

/-! ### interactions.js: initCharCounter (lines 80-101)

The counter's color logic, lines 90-96:
```
if (length < minChars) { counter.style.color = 'var(--color-text-muted)'; }
else if (length <= maxChars) { counter.style.color = 'var(--color-success)'; }
else { counter.style.color = 'var(--color-warning)'; }
```
The thresholds default to `minChars = 100`, `maxChars = 500` (line 80). -/

def defaultMinChars : Nat := 100

def defaultMaxChars : Nat := 500

def counterColor (minChars maxChars length : Nat) : String :=
  if length < minChars then "var(--color-text-muted)"
  else if length ≤ maxChars then "var(--color-success)"
  else "var(--color-warning)"

/-! ### storage.js: save/load/remove wrappers (lines 12-57)

The wrappers catch every exception of the underlying browser API. The
environment models `localStorage` and `JSON`, each primitive returning
`Except` (an `.error` is a thrown exception); `jsTry` is the JS
`try { body } catch (e) { handler }`. -/

structure JsEnv where
  setItem : String → String → Except String Unit
  getItem : String → Except String (Option String)
  removeItem : String → Except String Unit
  jsonStringify : JVal → String
  jsonParse : String → Except String JVal

/-- `try { body } catch (e) { handler(e) }`. -/
def jsTry {α : Type} (body : Except String α)
    (handler : String → Except String α) : Except String α :=
  match body with
  | .ok a => .ok a
  | .error e => handler e

/-- The app's fixed key namespace, `'conscience_inquiry_'`
(the STORAGE_PREFIX constant, storage.js line 5). -/
def storageNamespace : String := "conscience_inquiry_"

/-- storage.js lines 12-22 (`saveToStorage`). -/
def saveToStorage (env : JsEnv) (key : String) (value : JVal) :
    Except String Bool :=
  jsTry (do
      let prefixedKey := storageNamespace ++ key
      let serialized := env.jsonStringify value
      env.setItem prefixedKey serialized
      pure true)
    (fun _ => pure false)

/-- storage.js lines 30-42 (`loadFromStorage`), exception path included. -/
def loadFromStorage (env : JsEnv) (key : String) (defaultValue : JVal) :
    Except String JVal :=
  jsTry (do
      let prefixedKey := storageNamespace ++ key
      let serialized ← env.getItem prefixedKey
      match serialized with
      | none => pure defaultValue
      | some s => env.jsonParse s)
    (fun _ => pure defaultValue)

/-- storage.js lines 48-57 (`removeFromStorage`). -/
def removeFromStorage (env : JsEnv) (key : String) : Except String Bool :=
  jsTry (do
      env.removeItem (storageNamespace ++ key)
      pure true)
    (fun _ => pure false)

/-! ### interactions.js: initRevealBlocks (lines 8-28)

Each trigger/content pair carries two boolean attributes. Initialization
(lines 18-19) sets `aria-expanded = false` on the trigger and
`aria-hidden = true` on the content; the click handler (lines 21-26) reads
the expanded flag and writes its negation to the trigger and its old value
to the content. -/

structure RevealState where
  expanded : Bool
  hidden : Bool

def revealInit : RevealState := { expanded := false, hidden := true }

def revealClick (s : RevealState) : RevealState :=
  { expanded := !s.expanded, hidden := s.expanded }

/-- States of a reveal pair reachable from initialization by clicks. -/
inductive RevealReachable : RevealState → Prop where
  | init : RevealReachable revealInit
  | click {s : RevealState} : RevealReachable s → RevealReachable (revealClick s)

/-! ### synthesis.js: the submit handler (lines 123-143)

`String.prototype.trim` removes ECMAScript WhiteSpace and LineTerminator
code points from both ends of the string. -/

def isJsWhitespace (c : Char) : Bool :=
  c = ' ' || c = '\t' || c = '\n' || c = '\r' ||
  c = '\x0b' || c = '\x0c' || c = '\u00A0' || c = '\uFEFF' ||
  c = '\u1680' || ('\u2000' ≤ c && c ≤ '\u200A') ||
  c = '\u2028' || c = '\u2029' || c = '\u202F' || c = '\u205F' ||
  c = '\u3000'

/-- JS `s.trim()`: drop leading and trailing whitespace. -/
def jsTrim (s : String) : String :=
  String.mk
    (((s.data.dropWhile isJsWhitespace).reverse.dropWhile isJsWhitespace).reverse)

/-- The observable outcome of one run of the submit handler: which values it
persisted (`none` = untouched), whether it marked the synthesis page
completed, the toast message it showed, and whether it scheduled the
navigation to `conclusion.html`. -/
structure SubmitResult where
  synthesisStored : Option String
  finalSliderStored : Option Int
  markedCompleted : Bool
  message : Option String
  navigationScheduled : Bool
deriving DecidableEq

/-- Outcome of the early-return branch (synthesis.js lines 129-132): only a
toast is shown, nothing is stored, no navigation. -/
def rejectSubmit : SubmitResult :=
  { synthesisStored := none
    finalSliderStored := none
    markedCompleted := false
    message := some "Please write at least 100 characters for your synthesis."
    navigationScheduled := false }

/-- Outcome of the success branch (synthesis.js lines 134-142). -/
def acceptSubmit (synthesisValue : String) (sliderValue : Int) : SubmitResult :=
  { synthesisStored := some synthesisValue
    finalSliderStored := some sliderValue
    markedCompleted := true
    message := some "Synthesis saved. Proceeding to conclusion..."
    navigationScheduled := true }

/-- synthesis.js lines 123-143:
```
const synthesisValue = synthesisTextarea ? synthesisTextarea.value.trim() : '';
const sliderValue = finalSlider ? parseInt(finalSlider.value, 10) : 50;
if (synthesisValue.length < 100) {
  showConfirmation('Please write at least 100 characters...', 'info');
  return;
}
saveToStorage('synthesis_statement', synthesisValue);
saveToStorage('final_slider', sliderValue);
markPageCompleted('synthesis');
showConfirmation('Synthesis saved. Proceeding to conclusion...');
setTimeout(() => { window.location.href = 'conclusion.html'; }, 1500);
```
-/
def submitSynthesis (textareaValue : String) (sliderValue : Int) : SubmitResult :=
  let synthesisValue := jsTrim textareaValue
  if synthesisValue.length < 100 then rejectSubmit
  else acceptSubmit synthesisValue sliderValue

/-! ### synthesis.js: exportSynthesis (lines 167-215)

The assembled text, one definition per `text +=` block of the source. The
current date (`new Date().toLocaleDateString()`) is a parameter. -/

/-- JS `s.repeat(n)`. -/
def strRepeat (s : String) : Nat → String
  | 0 => ""
  | n + 1 => s ++ strRepeat s n

/-- JS `s || fallback` on strings: the empty string is falsy. -/
def jsOrStr (s fallback : String) : String := if s = "" then fallback else s

/-- JS `v || fallback` on a number-or-null: `null` and `0` are falsy. -/
def jsOrInt (v : Option Int) (fallback : Int) : Int :=
  match v with
  | none => fallback
  | some n => if n = 0 then fallback else n

/-- The stored responses as consumed by `exportSynthesis`: the slider values
are numbers (`final_slider` may be the unset `null`), all other fields are
strings. -/
structure ExportData where
  initialSlider : Int
  initialReason : String
  biologyReflection : String
  infantsReflection : String
  traumaReflection : String
  familyReflection : String
  starvationReflection : String
  philosophyReflection : String
  synthesisStatement : String
  finalSlider : Option Int

/-- One iteration of the `pillars.forEach` loop (synthesis.js lines
196-201): a reflection contributes its block only when it is truthy and its
trimmed form is truthy. -/
def pillarSegment (name reflection : String) : String :=
  if reflection ≠ "" ∧ jsTrim reflection ≠ "" then
    "\n" ++ name ++ ":\n" ++ reflection ++ "\n"
  else ""

/-- The six loop iterations over the pillar array literal
(synthesis.js lines 187-194), unrolled in order. -/
def journeySegments (r : ExportData) : String :=
  pillarSegment "The Social Brain" r.biologyReflection ++
  pillarSegment "Infant Fairness" r.infantsReflection ++
  pillarSegment "Epigenetic Trauma" r.traumaReflection ++
  pillarSegment "Family & Morality" r.familyReflection ++
  pillarSegment "Starvation Study" r.starvationReflection ++
  pillarSegment "Philosophy" r.philosophyReflection

/-- synthesis.js lines 170-177. -/
def exportHeader (dateStr : String) : String :=
  "CONSCIENCE INQUIRY — PERSONAL SYNTHESIS\n" ++ strRepeat "=" 50 ++ "\n\n" ++
  "Date: " ++ dateStr ++ "\n\n"

/-- synthesis.js lines 174-177 (`INITIAL POSITION` block). -/
def initialSection (r : ExportData) : String :=
  "INITIAL POSITION\n" ++ strRepeat "-" 30 ++ "\n" ++
  "Slider: " ++ formatConscienceSlider r.initialSlider ++ "\n" ++
  "Reasoning: " ++ jsOrStr r.initialReason "Not recorded" ++ "\n\n"

/-- synthesis.js lines 179-182 (`FINAL POSITION` block); note the source
reads `responses.finalSlider || 50`. -/
def finalSection (r : ExportData) : String :=
  "FINAL POSITION\n" ++ strRepeat "-" 30 ++ "\n" ++
  "Slider: " ++ formatConscienceSlider (jsOrInt r.finalSlider 50) ++ "\n" ++
  "Synthesis: " ++ jsOrStr r.synthesisStatement "Not recorded" ++ "\n\n"

/-- The full text assembled by `exportSynthesis` before the download is
triggered (synthesis.js lines 170-201). -/
def exportText (r : ExportData) (dateStr : String) : String :=
  exportHeader dateStr ++ initialSection r ++ finalSection r ++
  "JOURNEY REFLECTIONS\n" ++ strRepeat "-" 30 ++ "\n" ++
  journeySegments r

/-- `isSubstring needle hay`: `needle` occurs contiguously in `hay`. -/
def isSubstring (needle hay : String) : Prop :=
  needle.data <:+: hay.data

instance (needle hay : String) : Decidable (isSubstring needle hay) := by
  unfold isSubstring
  infer_instance

/-- The export record in which every field still has its stored default
except the final slider, which is stored as `0`. -/
def zeroFinalSliderData : ExportData :=
  { initialSlider := 50
    initialReason := ""
    biologyReflection := ""
    infantsReflection := ""
    traumaReflection := ""
    familyReflection := ""
    starvationReflection := ""
    philosophyReflection := ""
    synthesisStatement := ""
    finalSlider := some 0 }

/-- A 100-character input consisting only of spaces. -/
def hundredSpaces : String := String.mk (List.replicate 100 ' ')

/-! ## Theorems -/

/-- Any string of the shape `x ++ "% Constructed"` contains the character
`%`, while `"Exactly balanced"` does not, so they are never equal. -/
lemma constructed_ne_balanced (x : String) :
    x ++ "% Constructed" ≠ "Exactly balanced" := by
  intro h
  have hmem : '%' ∈ (x ++ "% Constructed").data := by
    rw [String.data_append]
    exact List.mem_append_right _ (by decide)
  rw [h] at hmem
  exact absurd hmem (by decide)

/-- Same for `x ++ "% Innate"`: it contains `%`, `"Exactly balanced"`
does not. -/
lemma innate_ne_balanced (x : String) :
    x ++ "% Innate" ≠ "Exactly balanced" := by
  intro h
  have hmem : '%' ∈ (x ++ "% Innate").data := by
    rw [String.data_append]
    exact List.mem_append_right _ (by decide)
  rw [h] at hmem
  exact absurd hmem (by decide)

/-- Claim C1: for every integer slider value `v` with `0 ≤ v ≤ 100`,
`formatConscienceSlider v` is the neutral label `"Exactly balanced"`
exactly when `v = 50`; for `v < 50` it is the constructed-percentage
string whose number is `100 - v`; for `v > 50` it is the
innate-percentage string whose number is `v`. -/
theorem formatConscienceSlider_spec (v : Int) (h0 : 0 ≤ v) (h1 : v ≤ 100) :
    (formatConscienceSlider v = "Exactly balanced" ↔ v = 50) ∧
    (v < 50 → formatConscienceSlider v = toString (100 - v) ++ "% Constructed") ∧
    (50 < v → formatConscienceSlider v = toString v ++ "% Innate") := by
  refine ⟨⟨?_, ?_⟩, ?_, ?_⟩
  · intro h
    by_contra hne
    unfold formatConscienceSlider at h
    simp only [if_neg hne] at h
    by_cases hlt : v < 50
    · rw [if_pos hlt] at h
      exact constructed_ne_balanced _ h
    · rw [if_neg hlt] at h
      exact innate_ne_balanced _ h
  · intro h
    simp [formatConscienceSlider, h]
  · intro hlt
    unfold formatConscienceSlider
    rw [if_neg (by omega), if_pos hlt]
  · intro hgt
    unfold formatConscienceSlider
    rw [if_neg (by omega), if_neg (by omega)]

/-- Witness for C1: concrete evaluations at 30, 50 and 80. -/
theorem formatConscienceSlider_spec_witness :
    formatConscienceSlider 30 = "70% Constructed" ∧
    formatConscienceSlider 50 = "Exactly balanced" ∧
    formatConscienceSlider 80 = "80% Innate" := by
  refine ⟨?_, ?_, ?_⟩
  · exact (formatConscienceSlider_spec 30 (by decide) (by decide)).2.1 (by decide)
  · exact ((formatConscienceSlider_spec 50 (by decide) (by decide)).1).mpr rfl
  · exact (formatConscienceSlider_spec 80 (by decide) (by decide)).2.2 (by decide)

/-- Claim C2: `getProgressPercentage` returns `round(100 * c / 8)` where `c`
is the number of the eight fixed page names occurring in the stored list;
duplicates and names outside the fixed list do not affect the result, and the
endpoints are `0` (none of the eight present) and `100` (all eight present). -/
theorem getProgressPercentage_spec (L : List String) :
    getProgressPercentage L =
      mathRound (100 * (allPages.countP (fun p => decide (p ∈ L)) : ℚ) / 8) ∧
    getProgressPercentage L.dedup = getProgressPercentage L ∧
    getProgressPercentage (L.filter (fun s => decide (s ∈ allPages))) =
      getProgressPercentage L ∧
    ((∀ p ∈ allPages, p ∉ L) → getProgressPercentage L = 0) ∧
    ((∀ p ∈ allPages, p ∈ L) → getProgressPercentage L = 100) := by
  have h8 : (allPages.length : ℚ) = 8 := by norm_num [allPages]
  refine ⟨?_, ?_, ?_, ?_, ?_⟩
  · simp only [getProgressPercentage]
    rw [List.countP_eq_length_filter, h8]
    congr 1
    ring
  · have hfil : allPages.filter (fun p => decide (p ∈ L.dedup)) =
        allPages.filter (fun p => decide (p ∈ L)) :=
      List.filter_congr (fun x _ => by simp [List.mem_dedup])
    simp only [getProgressPercentage, hfil]
  · have hfil : allPages.filter
          (fun p => decide (p ∈ L.filter (fun s => decide (s ∈ allPages)))) =
        allPages.filter (fun p => decide (p ∈ L)) :=
      List.filter_congr (fun x hx => by simp [List.mem_filter, hx])
    simp only [getProgressPercentage, hfil]
  · intro h
    have hfil : allPages.filter (fun p => decide (p ∈ L)) = [] :=
      List.filter_eq_nil_iff.mpr (fun a ha => by simp [h a ha])
    simp only [getProgressPercentage, hfil]
    norm_num [mathRound]
  · intro h
    have hfil : allPages.filter (fun p => decide (p ∈ L)) = allPages :=
      List.filter_eq_self.mpr (fun a ha => by simp [h a ha])
    simp only [getProgressPercentage, hfil, h8]
    norm_num [mathRound, allPages]

/-- Witness for C2: the empty list gives 0%, and a list with all eight page
names plus duplicates and unknown names gives 100%. -/
theorem getProgressPercentage_spec_witness :
    getProgressPercentage [] = 0 ∧
    getProgressPercentage
      ["index", "biology", "infants", "trauma", "family", "starvation",
       "philosophy", "synthesis", "index", "unknown-page"] = 100 := by
  constructor
  · exact (getProgressPercentage_spec []).2.2.2.1 (by decide)
  · exact (getProgressPercentage_spec _).2.2.2.2 (by decide)

/-- Claim C3: `markPageCompleted` leaves the list unchanged when the name is
already present, appends it at the end otherwise, and is idempotent: starting
from a list holding the name at most once, two successive calls leave exactly
one occurrence. -/
theorem markPageCompleted_spec (L : List String) (n : String) :
    (n ∈ L → markPageCompleted L n = L) ∧
    (n ∉ L → markPageCompleted L n = L ++ [n]) ∧
    (L.count n ≤ 1 →
      markPageCompleted (markPageCompleted L n) n = markPageCompleted L n ∧
      (markPageCompleted (markPageCompleted L n) n).count n = 1) := by
  refine ⟨fun h => if_pos h, fun h => if_neg h, fun hc => ?_⟩
  by_cases h : n ∈ L
  · have h1 : markPageCompleted L n = L := if_pos h
    rw [h1, h1]
    refine ⟨rfl, ?_⟩
    have hpos : 0 < L.count n := List.count_pos_iff.mpr h
    omega
  · have h1 : markPageCompleted L n = L ++ [n] := if_neg h
    have h2 : markPageCompleted (L ++ [n]) n = L ++ [n] := if_pos (by simp)
    rw [h1, h2]
    exact ⟨rfl, by simp [List.count_append, List.count_eq_zero.mpr h]⟩

/-- Witness for C3: a fresh name is appended and two calls leave one
occurrence; a present name leaves the list unchanged. -/
theorem markPageCompleted_spec_witness :
    markPageCompleted ["index"] "biology" = ["index", "biology"] ∧
    markPageCompleted (markPageCompleted ["index"] "biology") "biology" =
      markPageCompleted ["index"] "biology" ∧
    (markPageCompleted (markPageCompleted ["index"] "biology") "biology").count
      "biology" = 1 ∧
    markPageCompleted ["index"] "index" = ["index"] := by
  refine ⟨?_, ?_, ?_, ?_⟩
  · exact (markPageCompleted_spec ["index"] "biology").2.1 (by decide)
  · exact ((markPageCompleted_spec ["index"] "biology").2.2 (by decide)).1
  · exact ((markPageCompleted_spec ["index"] "biology").2.2 (by decide)).2
  · exact (markPageCompleted_spec ["index"] "index").1 (by decide)

/-- Claim C10: when no application key is present in storage,
`getAllResponses` returns the fixed defaults: slider 50, final slider null,
empty completed-pages list, and empty strings for all free-text fields. -/
theorem getAllResponses_defaults (store : Store) (h : ∀ k, store k = none) :
    getAllResponses store = defaultResponses := by
  simp [getAllResponses, defaultResponses, loadStored, h]

/-- Witness for C10: the empty store yields the default record. -/
theorem getAllResponses_defaults_witness :
    getAllResponses (fun _ => none) = defaultResponses :=
  getAllResponses_defaults (fun _ => none) (fun _ => rfl)

/-- Claim C6: with thresholds `m ≤ M`, the counter color is the
below-minimum color exactly when the length is `< m`, the within-range color
exactly when it lies in `[m, M]`, and the over color exactly when it exceeds
`M`; in particular at `m` the styling is not below-minimum, at `M` it is
still within-range, and at `M + 1` it is over. The defaults are 100/500. -/
theorem counterColor_spec (m M n : Nat) (hmM : m ≤ M) :
    (counterColor m M n = "var(--color-text-muted)" ↔ n < m) ∧
    (counterColor m M n = "var(--color-success)" ↔ m ≤ n ∧ n ≤ M) ∧
    (counterColor m M n = "var(--color-warning)" ↔ M < n) ∧
    counterColor m M m ≠ "var(--color-text-muted)" ∧
    counterColor m M M = "var(--color-success)" ∧
    counterColor m M (M + 1) = "var(--color-warning)" ∧
    defaultMinChars = 100 ∧ defaultMaxChars = 500 := by
  have hmut : ∀ k, counterColor m M k = "var(--color-text-muted)" ↔ k < m := by
    intro k
    unfold counterColor
    split_ifs with h1 h2
    · exact iff_of_true rfl h1
    · exact iff_of_false (by decide) h1
    · exact iff_of_false (by decide) h1
  have hsucc : ∀ k, counterColor m M k = "var(--color-success)" ↔
      m ≤ k ∧ k ≤ M := by
    intro k
    unfold counterColor
    split_ifs with h1 h2
    · exact iff_of_false (by decide) (by omega)
    · exact iff_of_true rfl (by omega)
    · exact iff_of_false (by decide) (by omega)
  have hwarn : ∀ k, counterColor m M k = "var(--color-warning)" ↔ M < k := by
    intro k
    unfold counterColor
    split_ifs with h1 h2
    · exact iff_of_false (by decide) (by omega)
    · exact iff_of_false (by decide) (by omega)
    · exact iff_of_true rfl (by omega)
  refine ⟨hmut n, hsucc n, hwarn n, ?_, ?_, ?_, rfl, rfl⟩
  · intro h
    exact absurd ((hmut m).mp h) (by omega)
  · exact (hsucc M).mpr ⟨hmM, le_refl M⟩
  · exact (hwarn (M + 1)).mpr (by omega)

/-- Witness for C6: boundary evaluations at the default thresholds. -/
theorem counterColor_spec_witness :
    counterColor 100 500 100 ≠ "var(--color-text-muted)" ∧
    counterColor 100 500 500 = "var(--color-success)" ∧
    counterColor 100 500 501 = "var(--color-warning)" := by
  have h := counterColor_spec 100 500 250 (by decide)
  exact ⟨h.2.2.2.1, h.2.2.2.2.1, h.2.2.2.2.2.1⟩

/-- Claim C7: the storage wrappers never let an exception escape. Whatever
the underlying API does, `saveToStorage` and `removeFromStorage` return a
boolean (`true` on success, `false` when the primitive throws), and
`loadFromStorage` returns the parsed value on success and the supplied
default when the primitive throws, the key is absent, or parsing throws. -/
theorem storage_wrappers_never_raise (env : JsEnv) (key : String)
    (value : JVal) (defaultValue : JVal) :
    saveToStorage env key value =
      .ok (match env.setItem (storageNamespace ++ key)
            (env.jsonStringify value) with
           | .ok _ => true
           | .error _ => false) ∧
    removeFromStorage env key =
      .ok (match env.removeItem (storageNamespace ++ key) with
           | .ok _ => true
           | .error _ => false) ∧
    loadFromStorage env key defaultValue =
      .ok (match env.getItem (storageNamespace ++ key) with
           | .error _ => defaultValue
           | .ok none => defaultValue
           | .ok (some s) =>
             match env.jsonParse s with
             | .error _ => defaultValue
             | .ok v => v) := by
  refine ⟨?_, ?_, ?_⟩
  · cases h : env.setItem (storageNamespace ++ key) (env.jsonStringify value) <;>
      simp [saveToStorage, jsTry, h, Bind.bind, Except.bind, Pure.pure, Except.pure]
  · cases h : env.removeItem (storageNamespace ++ key) <;>
      simp [removeFromStorage, jsTry, h, Bind.bind, Except.bind, Pure.pure, Except.pure]
  · cases h : env.getItem (storageNamespace ++ key) with
    | error e => simp [loadFromStorage, jsTry, h, Bind.bind, Except.bind, Pure.pure, Except.pure]
    | ok serialized =>
      cases serialized with
      | none => simp [loadFromStorage, jsTry, h, Bind.bind, Except.bind, Pure.pure, Except.pure]
      | some s =>
        cases hp : env.jsonParse s <;>
          simp [loadFromStorage, jsTry, h, hp, Bind.bind, Except.bind, Pure.pure, Except.pure]

/-- Claim C8: every reveal-pair state reachable from initialization by
clicks keeps the content's hidden flag the exact negation of the trigger's
expanded flag. -/
theorem revealReachable_invariant (s : RevealState) (h : RevealReachable s) :
    s.hidden = !s.expanded := by
  induction h with
  | init => rfl
  | click _ _ => simp [revealClick]

/-- Witness for C8: the invariant holds after one click from the initial
state. -/
theorem revealReachable_invariant_witness :
    (revealClick revealInit).hidden = !(revealClick revealInit).expanded :=
  revealReachable_invariant _ (RevealReachable.click RevealReachable.init)

/-- Trimming never lengthens a string. -/
lemma jsTrim_length_le (s : String) : (jsTrim s).length ≤ s.length := by
  show (((s.data.dropWhile isJsWhitespace).reverse.dropWhile
      isJsWhitespace).reverse).length ≤ s.data.length
  rw [List.length_reverse]
  calc ((s.data.dropWhile isJsWhitespace).reverse.dropWhile
          isJsWhitespace).length
      ≤ (s.data.dropWhile isJsWhitespace).reverse.length :=
        (List.dropWhile_sublist _).length_le
    _ = (s.data.dropWhile isJsWhitespace).length := List.length_reverse _
    _ ≤ s.data.length := (List.dropWhile_sublist _).length_le

/-- Claim C4 (amended): a submission whose free text has raw length 99 is
rejected — the toast is shown, nothing is persisted, the page is not marked
completed, no navigation happens; a submission whose free text has length
exactly 100 and no leading or trailing whitespace (so that trimming leaves
it unchanged) is accepted — the synthesis and the final slider value are
persisted, the page is marked completed, the confirmation is shown and
navigation is scheduled. -/
theorem submitSynthesis_spec (s : String) (v : Int) :
    (s.length = 99 → submitSynthesis s v = rejectSubmit) ∧
    (s.length = 100 → jsTrim s = s →
      submitSynthesis s v = acceptSubmit s v) := by
  constructor
  · intro h99
    have hle := jsTrim_length_le s
    unfold submitSynthesis
    rw [if_pos (by omega)]
  · intro h100 htrim
    unfold submitSynthesis
    rw [htrim, if_neg (by omega)]

/-- Witness for C4: 99 letters are rejected, 100 letters are accepted. -/
theorem submitSynthesis_spec_witness :
    submitSynthesis (String.mk (List.replicate 99 'a')) 50 = rejectSubmit ∧
    submitSynthesis (String.mk (List.replicate 100 'a')) 50 =
      acceptSubmit (String.mk (List.replicate 100 'a')) 50 := by
  constructor
  · exact (submitSynthesis_spec (String.mk (List.replicate 99 'a')) 50).1
      (by decide)
  · exact (submitSynthesis_spec (String.mk (List.replicate 100 'a')) 50).2
      (by decide) (by decide)

/-- Counterexample to Claim C4 as stated: an input of raw length exactly 100
made of spaces is rejected, not accepted. -/
theorem submitSynthesis_length100_counterexample :
    hundredSpaces.length = 100 ∧
    submitSynthesis hundredSpaces 50 = rejectSubmit := by
  exact ⟨by decide, by decide⟩

/-- Claim C9: the submit handler validates the trimmed text — it rejects
exactly when the trimmed text is shorter than 100 characters, and on
acceptance the value persisted under `synthesis_statement` is the trimmed
text, not the raw input. -/
theorem submitSynthesis_trim_spec (s : String) (v : Int) :
    (submitSynthesis s v = rejectSubmit ↔ (jsTrim s).length < 100) ∧
    (100 ≤ (jsTrim s).length →
      submitSynthesis s v = acceptSubmit (jsTrim s) v ∧
      (submitSynthesis s v).synthesisStored = some (jsTrim s)) := by
  constructor
  · constructor
    · intro h
      by_contra hn
      unfold submitSynthesis at h
      rw [if_neg hn] at h
      exact absurd (congrArg SubmitResult.navigationScheduled h)
        (by simp [acceptSubmit, rejectSubmit])
    · intro h
      unfold submitSynthesis
      rw [if_pos h]
  · intro h
    have hacc : submitSynthesis s v = acceptSubmit (jsTrim s) v := by
      unfold submitSynthesis
      rw [if_neg (by omega)]
    exact ⟨hacc, by simp [hacc, acceptSubmit]⟩

/-- Witness for C9: a short input is rejected; an input of 120 letters with
leading spaces is accepted and stores its trimmed form. -/
theorem submitSynthesis_trim_spec_witness :
    submitSynthesis "too short" 7 = rejectSubmit ∧
    (submitSynthesis (String.mk (List.replicate 5 ' ' ++
        List.replicate 120 'b')) 7).synthesisStored =
      some (String.mk (List.replicate 120 'b')) := by
  constructor
  · exact ((submitSynthesis_trim_spec "too short" 7).1).mpr (by decide)
  · have h := ((submitSynthesis_trim_spec
        (String.mk (List.replicate 5 ' ' ++ List.replicate 120 'b')) 7).2
        (by decide)).2
    rw [h]
    rw [show jsTrim (String.mk (List.replicate 5 ' ' ++
        List.replicate 120 'b')) = String.mk (List.replicate 120 'b')
      from by decide]

lemma isSubstring_refl (n : String) : isSubstring n n :=
  ⟨[], [], by simp⟩

lemma isSubstring_appendLeft (g : String) {n h : String}
    (hh : isSubstring n h) : isSubstring n (g ++ h) := by
  obtain ⟨l, r, hl⟩ := hh
  refine ⟨g.data ++ l, r, ?_⟩
  rw [String.data_append, ← hl]
  simp [List.append_assoc]

lemma isSubstring_appendRight (g : String) {n h : String}
    (hh : isSubstring n h) : isSubstring n (h ++ g) := by
  obtain ⟨l, r, hl⟩ := hh
  refine ⟨l, r ++ g.data, ?_⟩
  rw [String.data_append, ← hl]
  simp [List.append_assoc]

/-- A reflection with non-empty trim contributes its topic name, a colon and
newline, then its raw text, to its pillar segment. -/
lemma pillarSegment_sub (name reflection : String)
    (h : jsTrim reflection ≠ "") :
    isSubstring (name ++ ":\n" ++ reflection)
      (pillarSegment name reflection) := by
  have hne : reflection ≠ "" := by
    intro he
    apply h
    rw [he]
    rfl
  unfold pillarSegment
  rw [if_pos ⟨hne, h⟩]
  refine ⟨"\n".data, "\n".data, ?_⟩
  simp [String.data_append, List.append_assoc]

/-- A reflection that trims to the empty string contributes nothing at all
to the export. -/
lemma pillarSegment_empty (name reflection : String)
    (h : jsTrim reflection = "") : pillarSegment name reflection = "" := by
  unfold pillarSegment
  rw [if_neg]
  intro hc
  exact hc.2 h

lemma sub_exportText_initial {n : String} (r : ExportData) (dateStr : String)
    (hh : isSubstring n (initialSection r)) :
    isSubstring n (exportText r dateStr) := by
  unfold exportText
  exact isSubstring_appendRight _ (isSubstring_appendRight _
    (isSubstring_appendRight _ (isSubstring_appendRight _
      (isSubstring_appendRight _ (isSubstring_appendLeft _ hh)))))

lemma sub_exportText_final {n : String} (r : ExportData) (dateStr : String)
    (hh : isSubstring n (finalSection r)) :
    isSubstring n (exportText r dateStr) := by
  unfold exportText
  exact isSubstring_appendRight _ (isSubstring_appendRight _
    (isSubstring_appendRight _ (isSubstring_appendRight _
      (isSubstring_appendLeft _ hh))))

lemma sub_exportText_segments {n : String} (r : ExportData) (dateStr : String)
    (hh : isSubstring n (journeySegments r)) :
    isSubstring n (exportText r dateStr) := by
  unfold exportText
  exact isSubstring_appendLeft _ hh

lemma label_sub_initialSection (r : ExportData) :
    isSubstring (formatConscienceSlider r.initialSlider) (initialSection r) := by
  unfold initialSection
  exact isSubstring_appendRight _ (isSubstring_appendRight _
    (isSubstring_appendRight _ (isSubstring_appendRight _
      (isSubstring_appendLeft _ (isSubstring_refl _)))))

lemma label_sub_finalSection (r : ExportData) :
    isSubstring (formatConscienceSlider (jsOrInt r.finalSlider 50))
      (finalSection r) := by
  unfold finalSection
  exact isSubstring_appendRight _ (isSubstring_appendRight _
    (isSubstring_appendRight _ (isSubstring_appendRight _
      (isSubstring_appendLeft _ (isSubstring_refl _)))))

/-- Claim C5 (amended): the export text contains the initial slider's
formatted label, and the formatted label of the final slider value as
exported — the stored value when it is non-null and non-zero, else 50 (the
source reads `responses.finalSlider || 50`, so a stored 0 falls back). For
each of the six topics whose stored reflection is non-empty after trimming,
the text contains the topic's display name followed by its text; a
reflection that is empty or whitespace-only contributes nothing. -/
theorem exportText_spec (r : ExportData) (dateStr : String) :
    isSubstring (formatConscienceSlider r.initialSlider)
      (exportText r dateStr) ∧
    isSubstring (formatConscienceSlider (jsOrInt r.finalSlider 50))
      (exportText r dateStr) ∧
    (jsTrim r.biologyReflection ≠ "" →
      isSubstring ("The Social Brain" ++ ":\n" ++ r.biologyReflection)
        (exportText r dateStr)) ∧
    (jsTrim r.infantsReflection ≠ "" →
      isSubstring ("Infant Fairness" ++ ":\n" ++ r.infantsReflection)
        (exportText r dateStr)) ∧
    (jsTrim r.traumaReflection ≠ "" →
      isSubstring ("Epigenetic Trauma" ++ ":\n" ++ r.traumaReflection)
        (exportText r dateStr)) ∧
    (jsTrim r.familyReflection ≠ "" →
      isSubstring ("Family & Morality" ++ ":\n" ++ r.familyReflection)
        (exportText r dateStr)) ∧
    (jsTrim r.starvationReflection ≠ "" →
      isSubstring ("Starvation Study" ++ ":\n" ++ r.starvationReflection)
        (exportText r dateStr)) ∧
    (jsTrim r.philosophyReflection ≠ "" →
      isSubstring ("Philosophy" ++ ":\n" ++ r.philosophyReflection)
        (exportText r dateStr)) ∧
    (∀ name reflection, jsTrim reflection = "" →
      pillarSegment name reflection = "") := by
  refine ⟨sub_exportText_initial r dateStr (label_sub_initialSection r),
    sub_exportText_final r dateStr (label_sub_finalSection r),
    ?_, ?_, ?_, ?_, ?_, ?_,
    fun name reflection h => pillarSegment_empty name reflection h⟩
  · intro h
    refine sub_exportText_segments r dateStr ?_
    unfold journeySegments
    exact isSubstring_appendRight _ (isSubstring_appendRight _
      (isSubstring_appendRight _ (isSubstring_appendRight _
        (isSubstring_appendRight _ (pillarSegment_sub _ _ h)))))
  · intro h
    refine sub_exportText_segments r dateStr ?_
    unfold journeySegments
    exact isSubstring_appendRight _ (isSubstring_appendRight _
      (isSubstring_appendRight _ (isSubstring_appendRight _
        (isSubstring_appendLeft _ (pillarSegment_sub _ _ h)))))
  · intro h
    refine sub_exportText_segments r dateStr ?_
    unfold journeySegments
    exact isSubstring_appendRight _ (isSubstring_appendRight _
      (isSubstring_appendRight _ (isSubstring_appendLeft _
        (pillarSegment_sub _ _ h))))
  · intro h
    refine sub_exportText_segments r dateStr ?_
    unfold journeySegments
    exact isSubstring_appendRight _ (isSubstring_appendRight _
      (isSubstring_appendLeft _ (pillarSegment_sub _ _ h)))
  · intro h
    refine sub_exportText_segments r dateStr ?_
    unfold journeySegments
    exact isSubstring_appendRight _ (isSubstring_appendLeft _
      (pillarSegment_sub _ _ h))
  · intro h
    refine sub_exportText_segments r dateStr ?_
    unfold journeySegments
    exact isSubstring_appendLeft _ (pillarSegment_sub _ _ h)

/-- Witness for C5: a record with one non-empty reflection. -/
theorem exportText_spec_witness :
    isSubstring (formatConscienceSlider 20)
      (exportText
        { initialSlider := 20
          initialReason := "why"
          biologyReflection := "brains are social"
          infantsReflection := ""
          traumaReflection := ""
          familyReflection := ""
          starvationReflection := ""
          philosophyReflection := ""
          synthesisStatement := "done"
          finalSlider := some 75 } "2/2/2024") ∧
    isSubstring ("The Social Brain" ++ ":\n" ++ "brains are social")
      (exportText
        { initialSlider := 20
          initialReason := "why"
          biologyReflection := "brains are social"
          infantsReflection := ""
          traumaReflection := ""
          familyReflection := ""
          starvationReflection := ""
          philosophyReflection := ""
          synthesisStatement := "done"
          finalSlider := some 75 } "2/2/2024") ∧
    pillarSegment "Philosophy" "   " = "" := by
  have h := exportText_spec
    { initialSlider := 20
      initialReason := "why"
      biologyReflection := "brains are social"
      infantsReflection := ""
      traumaReflection := ""
      familyReflection := ""
      starvationReflection := ""
      philosophyReflection := ""
      synthesisStatement := "done"
      finalSlider := some 75 } "2/2/2024"
  exact ⟨h.1, h.2.2.1 (by decide),
    h.2.2.2.2.2.2.2.2 "Philosophy" "   " (by decide)⟩

set_option maxRecDepth 40000 in
/-- Counterexample to Claim C5 as stated: with a stored final slider value
of `0`, the export text does not contain that value's formatted label
`"100% Constructed"` — the source's `responses.finalSlider || 50` treats the
stored `0` as falsy and formats `50` instead. -/
theorem exportText_finalZero_counterexample :
    zeroFinalSliderData.finalSlider = some 0 ∧
    ¬ isSubstring (formatConscienceSlider 0)
        (exportText zeroFinalSliderData "1/1/2024") := by
  exact ⟨rfl, by decide⟩

end ConscienceInquiry
